import Mathlib

/-!
Verification of the request aggregation and caching core of the
Academic Research Tool unified server (`unified_server.py`).

The embedding models the `/api/v1/scrape` endpoint (`scrape_sources`):
its Pydantic request/response models, the cache key computation, the
cache hit/miss branching, the per-source Prometheus metrics updates,
and the degraded fallback response produced when the orchestrator
raises.  Wall-clock times are modelled as natural numbers supplied as
parameters (`now` for the current clock, `elapsed` for the measured
execution time of the request); the scraping orchestrator is an
arbitrary function parameter returning either a result list or an
exception (`Except`).
-/

/-- The `ScrapingResult` per-source outcome produced by the scraping
orchestrator (`academic_scraper.ScrapingResult`), as consumed by
`scrape_sources`: `source`, `success`, `data`, `error`, `response_time`.
Payloads are opaque to the server, modelled as `Option String`;
`response_time` is optional (`None` when the call was not timed). -/
structure ScrapingResult where
  source : String
  success : Bool
  data : Option String
  error : Option String
  response_time : Option Nat
deriving Repr, DecidableEq

/-- The `ScrapeRequest` Pydantic model: `query` (validated to length 1..500)
and optional `sources` list (`None` means all registered sources). -/
structure ScrapeRequest where
  query : String
  sources : Option (List String)
deriving Repr, DecidableEq

/-- One entry of the `results` list of a `ScrapeResponse`: the dictionary
built from a `ScrapingResult` in the loop of `scrape_sources`
(fields `source`, `success`, `data`, `error`, `execution_time` taken
from `response_time`, and the literal `cached` flag). -/
structure ResultRecord where
  source : String
  success : Bool
  data : Option String
  error : Option String
  execution_time : Option Nat
  cached : Bool
deriving Repr, DecidableEq

/-- The `ScrapeResponse` Pydantic model. -/
structure ScrapeResponse where
  success : Bool
  query : String
  results : List ResultRecord
  total_sources : Nat
  successful_sources : Nat
  execution_time : Nat
deriving Repr, DecidableEq

/-- One stored cache entry: key, write time and the stored response. -/
structure CacheEntry where
  key : String
  writeTime : Nat
  value : ScrapeResponse
deriving Repr, DecidableEq

/-- Modelled from the spec: `cache_manager.CacheManager` is imported by
`unified_server.py` but its source is not part of this tree.  The spec
describes it as a key→value store with TTL: `get` returns the stored
response unless the key was never set or its TTL has elapsed since the
write; `set` stores a full response with a creation timestamp.  Entries
here carry their write time and the store has one TTL. -/
structure CacheManager where
  ttl : Nat
  entries : List CacheEntry
deriving Repr, DecidableEq

/-- Modelled from the spec: `get(key)` — a miss (`none`) if the key was
never set or its TTL has elapsed, otherwise the stored response. -/
def CacheManager.get (c : CacheManager) (key : String) (now : Nat) :
    Option ScrapeResponse :=
  match c.entries.find? (fun e => e.key == key) with
  | some e => if now - e.writeTime < c.ttl then some e.value else none
  | none => none

/-- Modelled from the spec: `set(key, value)` — stores the response under
the key with the current time as creation timestamp, replacing any
previous entry for that key. -/
def CacheManager.set (c : CacheManager) (key : String) (v : ScrapeResponse)
    (now : Nat) : CacheManager :=
  { c with entries := ⟨key, now, v⟩ :: c.entries.filter (fun e => !(e.key == key)) }

/-- The module-level Prometheus metrics of `unified_server.py`:
`scrape_requests_total` (counter labelled by source),
`scrape_duration_seconds` (histogram labelled by source, modelled as the
list of observed values), `cache_hits_total` and `cache_misses_total`. -/
structure Metrics where
  scrape_counter : String → Nat
  scrape_duration : String → List Nat
  cache_hits : Nat
  cache_misses : Nat

/-- The metrics update done for one result inside the loop of
`scrape_sources`: `scrape_counter.labels(result.source).inc()` always,
then `scrape_duration.labels(result.source).observe(result.response_time)`
only if `result.response_time is not None`. -/
def recordResultMetrics (m : Metrics) (r : ScrapingResult) : Metrics :=
  let m1 := { m with
    scrape_counter := fun s =>
      if s = r.source then m.scrape_counter s + 1 else m.scrape_counter s }
  match r.response_time with
  | some t => { m1 with
      scrape_duration := fun s =>
        if s = r.source then m1.scrape_duration s ++ [t] else m1.scrape_duration s }
  | none => m1

/-- The mutable server state visible to the scrape endpoint: the cache,
the metrics, and a count of dispatch attempts (each entry into the
`try` block that creates the orchestrator and calls
`scrape_all_sources`), used to state the "no additional scraper
invocation" properties. -/
structure ServerState where
  cache : CacheManager
  metrics : Metrics
  dispatch_attempts : Nat

/-- The scraping orchestrator, abstracted: given the query and the
optional source list, either returns the ordered result sequence or
raises (`Except.error`, covering both a failing
`create_scraping_orchestrator()` and a failing `scrape_all_sources`). -/
def Orchestrator : Type :=
  String → Option (List String) → Except String (List ScrapingResult)

/-- Python `str.lower()`: lowercase every character. -/
def pyLower (q : String) : String :=
  String.mk (q.data.map Char.toLower)

/-- Python `str.strip()`: drop leading and trailing whitespace. -/
def pyStrip (q : String) : String :=
  String.mk (((q.data.dropWhile Char.isWhitespace).reverse.dropWhile
    Char.isWhitespace).reverse)

/-- Query normalization used in the cache key:
`request.query.lower().strip()`. -/
def normQuery (q : String) : String :=
  pyStrip (pyLower q)

/-- The cache key computed by `scrape_sources`:
`f"{request.query.lower().strip()}|{','.join(request.sources or [])}"`.
The sources are joined in request order (no sorting); `None` and the
empty list both join to the empty string. -/
def cacheKey (req : ScrapeRequest) : String :=
  normQuery req.query ++ "|" ++ String.intercalate "," (req.sources.getD [])

/-- The dictionary built from one `ScrapingResult` in `scrape_sources`:
`execution_time` is taken from `response_time` and `cached` is the
literal `False`. -/
def toRecord (r : ScrapingResult) : ResultRecord :=
  { source := r.source, success := r.success, data := r.data,
    error := r.error, execution_time := r.response_time, cached := false }

/-- The `/api/v1/scrape` handler body of `unified_server.py` after
validation.  `now` is the wall clock at request start, `elapsed` the
measured `time.time() - start_time`.  Cache hit: increment
`cache_hits`, return the stored response unchanged.  Cache miss:
increment `cache_misses`, attempt dispatch; on success update the
per-source metrics for every result, build the response, store it in
the cache and return it; if the orchestrator raises, return the
degraded fallback response without touching the cache. -/
def scrape_sources (orch : Orchestrator) (st : ServerState)
    (req : ScrapeRequest) (now elapsed : Nat) :
    ScrapeResponse × ServerState :=
  let key := cacheKey req
  match st.cache.get key now with
  | some cached =>
      (cached,
        { st with metrics := { st.metrics with cache_hits := st.metrics.cache_hits + 1 } })
  | none =>
      let st1 : ServerState :=
        { st with
          metrics := { st.metrics with cache_misses := st.metrics.cache_misses + 1 },
          dispatch_attempts := st.dispatch_attempts + 1 }
      match orch req.query req.sources with
      | Except.ok results =>
          let successful_results := results.filter (fun r => r.success)
          let m2 := results.foldl recordResultMetrics st1.metrics
          let response : ScrapeResponse :=
            { success := decide (0 < successful_results.length),
              query := req.query,
              results := results.map toRecord,
              total_sources := results.length,
              successful_sources := successful_results.length,
              execution_time := elapsed }
          (response,
            { st1 with metrics := m2, cache := st1.cache.set key response now })
      | Except.error _ =>
          ({ success := false, query := req.query, results := [],
             total_sources := 0, successful_sources := 0,
             execution_time := elapsed }, st1)

/-- The Pydantic validation declared on `ScrapeRequest`:
`query: str = Field(..., min_length=1, max_length=500)`.  FastAPI
rejects the request before the handler runs when it fails. -/
def validRequest (req : ScrapeRequest) : Bool :=
  decide (1 ≤ req.query.length) && decide (req.query.length ≤ 500)

/-- The full inbound pipeline for one scrape request: FastAPI/Pydantic
validation, then the handler.  A rejected request produces no
`ScrapeResponse` (`none`) and leaves the server state untouched. -/
def handleScrape (orch : Orchestrator) (st : ServerState)
    (req : ScrapeRequest) (now elapsed : Nat) :
    Option ScrapeResponse × ServerState :=
  if validRequest req then
    let p := scrape_sources orch st req now elapsed
    (some p.1, p.2)
  else
    (none, st)

/-- A fresh server state: empty cache with the given TTL, all metrics
at zero, no dispatch attempted yet. -/
def initState (ttl : Nat) : ServerState :=
  { cache := { ttl := ttl, entries := [] },
    metrics := { scrape_counter := fun _ => 0, scrape_duration := fun _ => [],
                 cache_hits := 0, cache_misses := 0 },
    dispatch_attempts := 0 }

/-- The documented response invariant:
`successful_sources <= total_sources` and
`success == (successful_sources > 0)`. -/
def respInv (r : ScrapeResponse) : Prop :=
  r.successful_sources ≤ r.total_sources ∧
    (r.success = true ↔ 0 < r.successful_sources)

/-- Every response stored in the cache satisfies the response
invariant.  Holds of every reachable state since only freshly built
responses are stored. -/
def cacheInv (st : ServerState) : Prop :=
  ∀ e ∈ st.cache.entries, respInv e.value

/-- Every record of the response carries `cached = false`. -/
def recordsFresh (r : ScrapeResponse) : Prop :=
  ∀ rec ∈ r.results, rec.cached = false

/-- Every response stored in the cache has only `cached = false`
records.  Holds of every reachable state since only freshly built
responses (whose records are built with the literal `cached: False`)
are stored. -/
def cacheRecordsFresh (st : ServerState) : Prop :=
  ∀ e ∈ st.cache.entries, recordsFresh e.value

/-- A fixed result list used to instantiate the theorems: one
successful wikipedia result with a recorded response time, and one
failed pubmed result without one. -/
def orchFixedResults : List ScrapingResult :=
  [ { source := "wikipedia", success := true, data := some "payload",
      error := none, response_time := some 2 },
    { source := "pubmed", success := false, data := none,
      error := some "timeout", response_time := none } ]

/-- A fixed orchestrator returning `orchFixedResults` for every query. -/
def orchFixed : Orchestrator := fun _ _ =>
  Except.ok orchFixedResults

/-- A fixed always-raising orchestrator (e.g. the scraper registry is
unavailable, so `create_scraping_orchestrator()` raises). -/
def orchDown : Orchestrator := fun _ _ =>
  Except.error "registry unavailable"

example :
    cacheKey ⟨"Ab ", some ["x", "y"]⟩ = "ab|x,y" := by decide

example :
    (scrape_sources (fun _ _ => Except.error "down") (initState 10)
      ⟨"a", none⟩ 0 3).1.success = false := by decide

/-! ### Helper lemmas about the cache model and the metrics fold -/

theorem CacheManager.get_set_self (c : CacheManager) (key : String)
    (v : ScrapeResponse) (t now : Nat) (h : now - t < c.ttl) :
    (c.set key v t).get key now = some v := by
  simp [CacheManager.get, CacheManager.set, h]

theorem CacheManager.get_none_mono (c : CacheManager) (key : String)
    {now now' : Nat} (h : c.get key now = none) (hle : now ≤ now') :
    c.get key now' = none := by
  unfold CacheManager.get at h ⊢
  cases hf : c.entries.find? (fun e => e.key == key) with
  | none => rfl
  | some e =>
    rw [hf] at h
    have httl : c.ttl ≤ now - e.writeTime := by
      by_contra hc
      push_neg at hc
      simp [hc] at h
    have hlt : ¬ now' - e.writeTime < c.ttl := by omega
    simp [hlt]

theorem recordResultMetrics_counter (m : Metrics) (r : ScrapingResult)
    (s : String) :
    (recordResultMetrics m r).scrape_counter s =
      if s = r.source then m.scrape_counter s + 1 else m.scrape_counter s := by
  unfold recordResultMetrics
  cases r.response_time <;> simp

theorem recordResultMetrics_duration (m : Metrics) (r : ScrapingResult)
    (s : String) :
    (recordResultMetrics m r).scrape_duration s =
      m.scrape_duration s ++
        (if s = r.source then r.response_time.toList else []) := by
  unfold recordResultMetrics
  cases r.response_time <;> by_cases h : s = r.source <;> simp [h]

theorem recordResultMetrics_cache_hits (m : Metrics) (r : ScrapingResult) :
    (recordResultMetrics m r).cache_hits = m.cache_hits := by
  unfold recordResultMetrics
  cases r.response_time <;> simp

theorem recordResultMetrics_cache_misses (m : Metrics) (r : ScrapingResult) :
    (recordResultMetrics m r).cache_misses = m.cache_misses := by
  unfold recordResultMetrics
  cases r.response_time <;> simp

theorem foldl_record_cache_hits (rs : List ScrapingResult) (m : Metrics) :
    (rs.foldl recordResultMetrics m).cache_hits = m.cache_hits := by
  induction rs generalizing m with
  | nil => rfl
  | cons r rs ih => rw [List.foldl_cons, ih, recordResultMetrics_cache_hits]

theorem foldl_record_cache_misses (rs : List ScrapingResult) (m : Metrics) :
    (rs.foldl recordResultMetrics m).cache_misses = m.cache_misses := by
  induction rs generalizing m with
  | nil => rfl
  | cons r rs ih => rw [List.foldl_cons, ih, recordResultMetrics_cache_misses]

theorem foldl_record_counter (rs : List ScrapingResult) (m : Metrics)
    (s : String) :
    (rs.foldl recordResultMetrics m).scrape_counter s =
      m.scrape_counter s + (rs.filter (fun r => r.source == s)).length := by
  induction rs generalizing m with
  | nil => simp
  | cons r rs ih =>
    rw [List.foldl_cons, ih, recordResultMetrics_counter, List.filter_cons]
    by_cases h : s = r.source
    · simp [h]
      omega
    · have h' : ¬ r.source = s := fun hc => h hc.symm
      simp [h, h']

theorem foldl_record_duration (rs : List ScrapingResult) (m : Metrics)
    (s : String) :
    (rs.foldl recordResultMetrics m).scrape_duration s =
      m.scrape_duration s ++
        rs.filterMap (fun r => if s = r.source then r.response_time else none) := by
  induction rs generalizing m with
  | nil => simp
  | cons r rs ih =>
    rw [List.foldl_cons, ih, recordResultMetrics_duration, List.filterMap_cons]
    by_cases h : s = r.source
    · cases r.response_time <;> simp [h]
    · simp [h]

/-! ### Claim theorems -/

/-- C1: every response returned by the scrape endpoint — fresh
computation, cache hit, or dispatch-failure fallback — satisfies
`successful_sources <= total_sources` and
`success = true` iff `successful_sources > 0`; moreover the cache only
ever holds responses satisfying this invariant, so it is preserved. -/
theorem scrape_response_invariant (orch : Orchestrator) (st : ServerState)
    (req : ScrapeRequest) (now elapsed : Nat) (hinv : cacheInv st) :
    respInv (scrape_sources orch st req now elapsed).1 ∧
      cacheInv (scrape_sources orch st req now elapsed).2 := by
  cases hget : st.cache.get (cacheKey req) now with
  | some v =>
    simp only [scrape_sources, hget]
    constructor
    · unfold CacheManager.get at hget
      cases hf : st.cache.entries.find? (fun e => e.key == cacheKey req) with
      | none => rw [hf] at hget; exact absurd hget (by simp)
      | some e =>
        rw [hf] at hget
        dsimp only at hget
        have hmem := List.mem_of_find?_eq_some hf
        have hv : v = e.value := by
          by_cases hc : now - e.writeTime < st.cache.ttl
          · rw [if_pos hc] at hget
            exact (Option.some.inj hget).symm
          · rw [if_neg hc] at hget
            exact absurd hget (by simp)
        rw [hv]
        exact hinv e hmem
    · exact hinv
  | none =>
    cases horch : orch req.query req.sources with
    | error msg =>
      simp only [scrape_sources, hget, horch]
      exact ⟨⟨Nat.le_refl 0, by simp⟩, hinv⟩
    | ok rs =>
      simp only [scrape_sources, hget, horch]
      constructor
      · exact ⟨List.length_filter_le _ _, by simp⟩
      · intro e he
        simp only [CacheManager.set, List.mem_cons] at he
        rcases he with he | he
        · rw [he]
          exact ⟨List.length_filter_le _ _, by simp⟩
        · exact hinv e (List.mem_of_mem_filter he)

/-- Witness for C1 at a concrete orchestrator, fresh state and
request. -/
theorem scrape_response_invariant_witness :
    respInv (scrape_sources orchFixed (initState 10) ⟨"a", none⟩ 0 3).1 ∧
      cacheInv (scrape_sources orchFixed (initState 10) ⟨"a", none⟩ 0 3).2 :=
  scrape_response_invariant orchFixed (initState 10) ⟨"a", none⟩ 0 3
    (by simp [cacheInv, initState])

/-- C3: when the cache misses and the orchestrator call raises, the
endpoint still returns the well-formed fallback `ScrapeResponse` with
`success = false`, empty `results`, zero source counts and the measured
`execution_time`; no hard error propagates (`scrape_sources` is total
and always returns a response). -/
theorem scrape_dispatch_failure_fallback (orch : Orchestrator)
    (st : ServerState) (req : ScrapeRequest) (now elapsed : Nat)
    (msg : String)
    (hmiss : st.cache.get (cacheKey req) now = none)
    (herr : orch req.query req.sources = Except.error msg) :
    (scrape_sources orch st req now elapsed).1 =
      { success := false, query := req.query, results := [],
        total_sources := 0, successful_sources := 0,
        execution_time := elapsed } := by
  simp [scrape_sources, hmiss, herr]

/-- Witness for C3: the always-raising orchestrator on a fresh state. -/
theorem scrape_dispatch_failure_fallback_witness :
    (scrape_sources orchDown (initState 10) ⟨"a", none⟩ 0 3).1 =
      { success := false, query := "a", results := [], total_sources := 0,
        successful_sources := 0, execution_time := 3 } :=
  scrape_dispatch_failure_fallback orchDown (initState 10) ⟨"a", none⟩ 0 3
    "registry unavailable" (by decide) rfl

/-- C2 counterexample: the code joins the requested sources in request
order without sorting, so two requests with the same identifiers in
different order get different cache keys, contradicting the claim that
the key uses the sorted source list. -/
theorem cache_key_not_order_insensitive :
    cacheKey ⟨"a", some ["pubmed", "wikipedia"]⟩ ≠
      cacheKey ⟨"a", some ["wikipedia", "pubmed"]⟩ := by decide

/-- C2 amended: the cache key is the normalized (lowercased, stripped)
query joined with the comma-separated source list in request order
(`None` treated as the empty list); requests whose queries normalize to
the same string and whose source lists are equal as sequences get
identical keys. -/
theorem cache_key_same_normalization_and_order (q₁ q₂ : String)
    (s₁ s₂ : Option (List String))
    (hq : normQuery q₁ = normQuery q₂) (hs : s₁.getD [] = s₂.getD []) :
    cacheKey ⟨q₁, s₁⟩ = cacheKey ⟨q₂, s₂⟩ := by
  simp [cacheKey, hq, hs]

/-- Witness for the amended C2: differently cased and padded queries
with the same source list give the same key. -/
theorem cache_key_same_normalization_and_order_witness :
    cacheKey ⟨"Neural Networks ", some ["wikipedia"]⟩ =
      cacheKey ⟨"neural networks", some ["wikipedia"]⟩ :=
  cache_key_same_normalization_and_order "Neural Networks "
    "neural networks" (some ["wikipedia"]) (some ["wikipedia"])
    (by decide) rfl

/-- C4 counterexample: when the first invocation takes the
dispatch-failure path, nothing is cached, so issuing the identical
request again (well within any TTL) dispatches again — the
dispatch-attempt count rises from 1 to 2 instead of staying at 1, and
the second invocation is not served from the cache. -/
theorem cache_idempotence_fails_after_dispatch_failure :
    (scrape_sources orchDown (initState 10) ⟨"a", none⟩ 0 1).2.dispatch_attempts
        = 1 ∧
      (scrape_sources orchDown
        (scrape_sources orchDown (initState 10) ⟨"a", none⟩ 0 1).2
        ⟨"a", none⟩ 1 1).2.dispatch_attempts = 2 := by
  exact ⟨rfl, rfl⟩

/-- C4 amended: for every request whose first invocation takes the
fresh-computation path (cache miss and the orchestrator returns a
result list), issuing the identical request again before the TTL
elapses returns the identical stored response, performs no additional
dispatch, and leaves the cache unchanged. -/
theorem cache_idempotence_on_successful_dispatch (orch : Orchestrator)
    (st : ServerState) (req : ScrapeRequest)
    (now₁ e₁ now₂ e₂ : Nat) (rs : List ScrapingResult)
    (hmiss : st.cache.get (cacheKey req) now₁ = none)
    (hok : orch req.query req.sources = Except.ok rs)
    (httl : now₂ - now₁ < st.cache.ttl) :
    (scrape_sources orch (scrape_sources orch st req now₁ e₁).2
          req now₂ e₂).1 = (scrape_sources orch st req now₁ e₁).1 ∧
      (scrape_sources orch (scrape_sources orch st req now₁ e₁).2
          req now₂ e₂).2.dispatch_attempts =
        (scrape_sources orch st req now₁ e₁).2.dispatch_attempts ∧
      (scrape_sources orch (scrape_sources orch st req now₁ e₁).2
          req now₂ e₂).2.cache = (scrape_sources orch st req now₁ e₁).2.cache := by
  simp only [scrape_sources, hmiss, hok]
  rw [CacheManager.get_set_self _ _ _ _ _ httl]
  exact ⟨rfl, rfl, rfl⟩

/-- Witness for the amended C4 at a concrete orchestrator and fresh
state. -/
theorem cache_idempotence_on_successful_dispatch_witness :
    (scrape_sources orchFixed (scrape_sources orchFixed (initState 10)
          ⟨"a", none⟩ 0 1).2 ⟨"a", none⟩ 1 1).1 =
        (scrape_sources orchFixed (initState 10) ⟨"a", none⟩ 0 1).1 ∧
      (scrape_sources orchFixed (scrape_sources orchFixed (initState 10)
          ⟨"a", none⟩ 0 1).2 ⟨"a", none⟩ 1 1).2.dispatch_attempts =
        (scrape_sources orchFixed (initState 10) ⟨"a", none⟩ 0 1).2.dispatch_attempts ∧
      (scrape_sources orchFixed (scrape_sources orchFixed (initState 10)
          ⟨"a", none⟩ 0 1).2 ⟨"a", none⟩ 1 1).2.cache =
        (scrape_sources orchFixed (initState 10) ⟨"a", none⟩ 0 1).2.cache :=
  cache_idempotence_on_successful_dispatch orchFixed (initState 10)
    ⟨"a", none⟩ 0 1 1 1 _ (by decide) rfl (by decide)

/-- C5: for every request that passes validation, exactly one of the
cache-hit and cache-miss counters is incremented — the hit counter
exactly when the cache lookup returns a stored response, the miss
counter otherwise (on both the successful-dispatch and the
dispatch-failure branch), never both. -/
theorem cache_counters_mutually_exclusive (orch : Orchestrator)
    (st : ServerState) (req : ScrapeRequest) (now elapsed : Nat)
    (hv : validRequest req = true) :
    ((st.cache.get (cacheKey req) now).isSome = true →
        (handleScrape orch st req now elapsed).2.metrics.cache_hits =
            st.metrics.cache_hits + 1 ∧
          (handleScrape orch st req now elapsed).2.metrics.cache_misses =
            st.metrics.cache_misses) ∧
      (st.cache.get (cacheKey req) now = none →
        (handleScrape orch st req now elapsed).2.metrics.cache_misses =
            st.metrics.cache_misses + 1 ∧
          (handleScrape orch st req now elapsed).2.metrics.cache_hits =
            st.metrics.cache_hits) := by
  constructor
  · intro hsome
    cases hget : st.cache.get (cacheKey req) now with
    | none => rw [hget] at hsome; exact absurd hsome (by simp)
    | some v => simp [handleScrape, hv, scrape_sources, hget]
  · intro hnone
    cases horch : orch req.query req.sources with
    | ok rs =>
      simp [handleScrape, hv, scrape_sources, hnone, horch,
        foldl_record_cache_hits, foldl_record_cache_misses]
    | error msg =>
      simp [handleScrape, hv, scrape_sources, hnone, horch]

/-- Witness for C5: a cache miss on a fresh state increments exactly the
miss counter. -/
theorem cache_counters_mutually_exclusive_witness :
    (handleScrape orchFixed (initState 10) ⟨"a", none⟩ 0 3).2.metrics.cache_misses =
        (initState 10).metrics.cache_misses + 1 ∧
      (handleScrape orchFixed (initState 10) ⟨"a", none⟩ 0 3).2.metrics.cache_hits =
        (initState 10).metrics.cache_hits :=
  (cache_counters_mutually_exclusive orchFixed (initState 10) ⟨"a", none⟩ 0 3
      (by decide)).2 (by decide)

/-- C6: on a fresh (cache-miss, non-failing) computation, for every
source label the per-source request counter increases by the number of
results carrying that source — success and failure alike — and the
per-source latency histogram is extended by exactly those response
times that are present (`some`), in result order. -/
theorem per_source_metrics_update (orch : Orchestrator) (st : ServerState)
    (req : ScrapeRequest) (now elapsed : Nat) (rs : List ScrapingResult)
    (s : String)
    (hmiss : st.cache.get (cacheKey req) now = none)
    (hok : orch req.query req.sources = Except.ok rs) :
    (scrape_sources orch st req now elapsed).2.metrics.scrape_counter s =
        st.metrics.scrape_counter s +
          (rs.filter (fun r => r.source == s)).length ∧
      (scrape_sources orch st req now elapsed).2.metrics.scrape_duration s =
        st.metrics.scrape_duration s ++
          rs.filterMap (fun r => if s = r.source then r.response_time else none) := by
  simp only [scrape_sources, hmiss, hok]
  exact ⟨foldl_record_counter rs _ s, foldl_record_duration rs _ s⟩

/-- Witness for C6 at the fixed orchestrator: the wikipedia counter
rises by its one result and its histogram receives the one recorded
response time (pubmed's missing time is not observed). -/
theorem per_source_metrics_update_witness :
    (scrape_sources orchFixed (initState 10) ⟨"a", none⟩ 0 3).2.metrics.scrape_counter "wikipedia" =
        (initState 10).metrics.scrape_counter "wikipedia" +
          (orchFixedResults.filter (fun r => r.source == "wikipedia")).length ∧
      (scrape_sources orchFixed (initState 10) ⟨"a", none⟩ 0 3).2.metrics.scrape_duration "wikipedia" =
        (initState 10).metrics.scrape_duration "wikipedia" ++
          orchFixedResults.filterMap
            (fun r => if "wikipedia" = r.source then r.response_time else none) :=
  per_source_metrics_update orchFixed (initState 10) ⟨"a", none⟩ 0 3
    orchFixedResults "wikipedia" (by decide) rfl

/-- A hit of the cache model returns the value of some stored entry. -/
theorem CacheManager.get_mem (c : CacheManager) (key : String) (now : Nat)
    (v : ScrapeResponse) (h : c.get key now = some v) :
    ∃ e ∈ c.entries, e.value = v := by
  unfold CacheManager.get at h
  cases hf : c.entries.find? (fun e => e.key == key) with
  | none => rw [hf] at h; exact absurd h (by simp)
  | some e =>
    rw [hf] at h
    dsimp only at h
    refine ⟨e, List.mem_of_find?_eq_some hf, ?_⟩
    by_cases hc : now - e.writeTime < c.ttl
    · rw [if_pos hc] at h
      exact Option.some.inj h
    · rw [if_neg hc] at h
      exact absurd h (by simp)

/-- C7 counterexample: a response served from the cache (the second
invocation below is a cache hit — the hit counter reads 1) still
carries `cached = false` on every record, because the stored response
is returned unchanged; the flag is never rewritten to `true` on the hit
path. -/
theorem cached_flag_false_even_on_hit :
    (scrape_sources orchFixed (scrape_sources orchFixed (initState 10)
          ⟨"a", none⟩ 0 1).2 ⟨"a", none⟩ 1 1).2.metrics.cache_hits = 1 ∧
      ((scrape_sources orchFixed (scrape_sources orchFixed (initState 10)
          ⟨"a", none⟩ 0 1).2 ⟨"a", none⟩ 1 1).1.results.map
            (fun rec => rec.cached)) = [false, false] :=
  ⟨rfl, rfl⟩

/-- C7 amended: every record of every returned response carries
`cached = false`: fresh responses build their records with the literal
`False`, the fallback response has no records, and a cache hit returns
the stored fresh-built response unchanged — so its records also carry
`cached = false` (never `true`), and the cache never holds a record
with `cached = true`. -/
theorem cached_flag_always_false (orch : Orchestrator) (st : ServerState)
    (req : ScrapeRequest) (now elapsed : Nat)
    (hinv : cacheRecordsFresh st) :
    recordsFresh (scrape_sources orch st req now elapsed).1 ∧
      cacheRecordsFresh (scrape_sources orch st req now elapsed).2 := by
  cases hget : st.cache.get (cacheKey req) now with
  | some v =>
    simp only [scrape_sources, hget]
    obtain ⟨e, hmem, hev⟩ := CacheManager.get_mem _ _ _ _ hget
    exact ⟨hev ▸ hinv e hmem, hinv⟩
  | none =>
    cases horch : orch req.query req.sources with
    | error msg =>
      simp only [scrape_sources, hget, horch]
      exact ⟨fun rec h => absurd h (by simp), hinv⟩
    | ok rs =>
      simp only [scrape_sources, hget, horch]
      constructor
      · intro rec h
        obtain ⟨r, _, hr⟩ := List.mem_map.mp h
        rw [← hr]
        rfl
      · intro e he
        simp only [CacheManager.set, List.mem_cons] at he
        rcases he with he | he
        · rw [he]
          intro rec h
          obtain ⟨r, _, hr⟩ := List.mem_map.mp h
          rw [← hr]
          rfl
        · exact hinv e (List.mem_of_mem_filter he)

/-- Witness for the amended C7 at a concrete orchestrator and fresh
state. -/
theorem cached_flag_always_false_witness :
    recordsFresh (scrape_sources orchFixed (initState 10) ⟨"a", none⟩ 0 3).1 ∧
      cacheRecordsFresh (scrape_sources orchFixed (initState 10) ⟨"a", none⟩ 0 3).2 :=
  cached_flag_always_false orchFixed (initState 10) ⟨"a", none⟩ 0 3
    (by simp [cacheRecordsFresh, initState])

/-- C8 counterexample: the cache-hit path returns the stored response,
whose `query` field is the raw query of the earlier request that
populated the entry.  A request whose query differs in case and padding
but normalizes to the same cache key gets the earlier raw query echoed
back, not its own. -/
theorem query_echo_fails_on_cache_hit :
    (scrape_sources orchFixed (scrape_sources orchFixed (initState 10)
          ⟨"Hello ", none⟩ 0 1).2 ⟨"hello", none⟩ 1 1).2.metrics.cache_hits = 1 ∧
      (scrape_sources orchFixed (scrape_sources orchFixed (initState 10)
          ⟨"Hello ", none⟩ 0 1).2 ⟨"hello", none⟩ 1 1).1.query = "Hello " ∧
      ("Hello " : String) ≠ "hello" :=
  ⟨rfl, rfl, by decide⟩

/-- C8 amended: on the cache-miss paths — fresh computation and
dispatch-failure fallback — the response's `query` equals the raw query
of the request being answered; on a cache hit the stored response is
returned unchanged, so the `query` field is that of the request that
populated the entry, which can differ from the current raw query. -/
theorem query_echoed_on_miss (orch : Orchestrator) (st : ServerState)
    (req : ScrapeRequest) (now elapsed : Nat)
    (hmiss : st.cache.get (cacheKey req) now = none) :
    (scrape_sources orch st req now elapsed).1.query = req.query := by
  cases horch : orch req.query req.sources <;>
    simp [scrape_sources, hmiss, horch]

/-- Witness for the amended C8 at a concrete orchestrator and fresh
state. -/
theorem query_echoed_on_miss_witness :
    (scrape_sources orchFixed (initState 10) ⟨"a", none⟩ 0 3).1.query = "a" :=
  query_echoed_on_miss orchFixed (initState 10) ⟨"a", none⟩ 0 3 (by decide)

/-- C9: a request whose query is empty or longer than 500 characters is
rejected by the declared Pydantic validation before the handler body
runs: no response is produced and the server state — cache, hit/miss
counters, per-source counters and histograms, dispatch count — is
returned entirely unchanged. -/
theorem invalid_request_no_side_effects (orch : Orchestrator)
    (st : ServerState) (req : ScrapeRequest) (now elapsed : Nat)
    (hbad : req.query.length = 0 ∨ 500 < req.query.length) :
    handleScrape orch st req now elapsed = (none, st) := by
  have hv : validRequest req = false := by
    simp only [validRequest, Bool.and_eq_false_iff, decide_eq_false_iff_not]
    omega
  simp [handleScrape, hv]

/-- Witness for C9: the empty query is rejected with no state change. -/
theorem invalid_request_no_side_effects_witness :
    handleScrape orchFixed (initState 10) ⟨"", none⟩ 0 3 = (none, initState 10) :=
  invalid_request_no_side_effects orchFixed (initState 10) ⟨"", none⟩ 0 3
    (Or.inl rfl)

/-- C10: the dispatch-failure fallback response is never written to the
cache — the cache is unchanged on the error path — and an immediately
following identical request therefore misses again and re-attempts a
fresh dispatch (the dispatch count increments again); only successfully
aggregated responses are ever stored. -/
theorem error_path_leaves_cache_unchanged (orch : Orchestrator)
    (st : ServerState) (req : ScrapeRequest)
    (now₁ e₁ now₂ e₂ : Nat) (msg : String)
    (hmiss : st.cache.get (cacheKey req) now₁ = none)
    (herr : orch req.query req.sources = Except.error msg)
    (hle : now₁ ≤ now₂) :
    (scrape_sources orch st req now₁ e₁).2.cache = st.cache ∧
      (scrape_sources orch (scrape_sources orch st req now₁ e₁).2
          req now₂ e₂).2.dispatch_attempts =
        (scrape_sources orch st req now₁ e₁).2.dispatch_attempts + 1 := by
  have hmiss₂ : st.cache.get (cacheKey req) now₂ = none :=
    CacheManager.get_none_mono _ _ hmiss hle
  simp [scrape_sources, hmiss, herr, hmiss₂]

/-- Witness for C10 with the always-raising orchestrator on a fresh
state. -/
theorem error_path_leaves_cache_unchanged_witness :
    (scrape_sources orchDown (initState 10) ⟨"a", none⟩ 0 1).2.cache =
        (initState 10).cache ∧
      (scrape_sources orchDown (scrape_sources orchDown (initState 10)
          ⟨"a", none⟩ 0 1).2 ⟨"a", none⟩ 1 1).2.dispatch_attempts =
        (scrape_sources orchDown (initState 10) ⟨"a", none⟩ 0 1).2.dispatch_attempts + 1 :=
  error_path_leaves_cache_unchanged orchDown (initState 10) ⟨"a", none⟩
    0 1 1 1 "registry unavailable" (by decide) rfl (by decide)
